import Mathlib

/-!
Verification of the MSMFE mesh-adaptation core (`src/uFE`) against its
natural-language specification.

The development shallowly embeds the Python modules
`implicit_domain_volumetric_mesh_generator.py`, `optimize_mesh_adaptation.py`
and `mesh_comparison.py`:

* file names are `String`s; Python's `str.replace` and `os.path.splitext`
  are reimplemented over character lists (fuel-based so everything reduces);
* Python floats are modelled as `ℚ` — all settled claims concern argument
  routing, file naming, log structure and control flow, never float rounding;
* the external remesher (`mmg3d`) is a black box: an `Engine` is any function
  from a structured invocation to an (exit code, stderr) pair, exactly the
  observable interface of `subprocess.call`;
* exceptions are modelled by `Except String`; a Python function that cannot
  raise on a path is embedded as one that returns `Except.ok` on that path;
* text files are lists of lines (each Python `write` call in the sources
  emits exactly one newline-terminated string).
-/

namespace MSMFE

/-! ## Python string primitives -/

/-- Non-overlapping left-to-right replacement of `pat` by `rep` in `l`,
as performed by Python's `str.replace`. Fuel-based so that the kernel can
reduce it; one unit of fuel is spent per consumed character, so fuel equal
to the length of `l` is always enough when `pat` is nonempty. -/
def replaceFuel : Nat → List Char → List Char → List Char → List Char
  | 0, l, _, _ => l
  | fuel + 1, l, pat, rep =>
    match l with
    | [] => []
    | c :: rest =>
      if pat.isPrefixOf (c :: rest) then
        rep ++ replaceFuel fuel ((c :: rest).drop pat.length) pat rep
      else
        c :: replaceFuel fuel rest pat rep

/-- Python `s.replace(pat, rep)` for a nonempty pattern (all call sites in the
sources use nonempty literal patterns). -/
def pyReplace (s pat rep : String) : String :=
  if pat = "" then s
  else String.mk (replaceFuel s.length s.toList pat.toList rep.toList)

/-- Index of the last occurrence of `c` in `l`, if any. -/
def rfindIdx (l : List Char) (c : Char) : Option Nat :=
  (l.foldl
    (fun acc ch => (if ch = c then some acc.2 else acc.1, acc.2 + 1))
    ((none : Option Nat), 0)).1

/-- The root part of Python's `os.path.splitext`: everything before the last
dot of the basename, provided that dot is preceded (within the basename) by a
character other than a dot; otherwise the whole path. -/
def splitextRoot (s : String) : String :=
  let l := s.toList
  let sep : Int := match rfindIdx l '/' with | none => -1 | some n => (n : Int)
  let dot : Int := match rfindIdx l '.' with | none => -1 | some n => (n : Int)
  if (decide (sep < dot) &&
      l.enum.any (fun p => decide (sep < (p.1 : Int) ∧ (p.1 : Int) < dot ∧ p.2 ≠ '.'))) then
    String.mk (l.take dot.toNat)
  else s

/-! ## Defaults (`utils/default_parameters.py`) -/

def DEFAULT_HAUSD : ℚ := 1 / 100

def DEFAULT_HGRAD : ℚ := 13 / 10

def DEFAULT_HMIN : ℚ := 1

def DEFAULT_HMAX : ℚ := 100

def DEFAULT_SUBDOMAIN : ℤ := 3

def DEFAULT_MEMORY_MAX : ℤ := 16000

def DEFAULT_MESH_ITERATIONS : Nat := 1

/-! ## Dynamically typed argument values

The `metric` parameter of the driver is annotated `str` in the source, but
Python enforces nothing: the optimizer actually passes a float into that slot.
`PyVal` captures exactly the two shapes that reach it. -/

inductive PyVal where
  | s : String → PyVal
  | f : ℚ → PyVal
deriving DecidableEq

/-- Python's `metric == "implicit_distance"`: comparing a float to a string is
simply `False`. -/
def metricIsImplicitDistance : PyVal → Bool
  | .s str => str = "implicit_distance"
  | .f _ => false

/-! ## Filename handling (`implicit_domain_volumetric_mesh_generator.py`) -/

/-- `handle_args_none_output_file`: a missing output name is derived from the
input name by replacing every occurrence of "initial" with "adapted". -/
def handle_args_none_output_file (input_file : String) (output_file : Option String) : String :=
  match output_file with
  | none => pyReplace input_file "initial" "adapted"
  | some o => o

/-- `handle_iterative`: per-iteration update of the (input, output) file names.
At `iter = 0` both are unchanged; at `iter = 1` only the output name gains an
iteration marker (the input name is left as it was); from `iter = 2` on the
input becomes the previous output and the marker is substituted forward. -/
def handle_iterative (input_file output_file : String) (iter : Nat) : String × String :=
  if iter = 0 then (input_file, output_file)
  else if iter = 1 then
    (input_file, splitextRoot output_file ++ "_iteration_" ++ toString iter ++ ".mesh")
  else
    (output_file,
     pyReplace output_file ("_iteration_" ++ toString (iter - 1)) ("_iteration_" ++ toString iter))

/-! ## The external adaptation engine -/

/-- One structured invocation of `mmg3d` as assembled by `run_mmg`. -/
structure MmgCall where
  input_file : String
  sol_file : String
  output_file : String
  memory_max : ℤ
  hausd : ℚ
  hgrad : ℚ
  hmin : ℚ
  hmax : ℚ
deriving DecidableEq

/-- What one external engine invocation leaves behind: the exit code
`subprocess.call` returns, the text on the process's error stream, and
whether a mesh now exists at the requested output path (a crashing engine
may write nothing). -/
structure EngineResult where
  exitCode : Nat
  stderr : String
  wroteOutput : Bool
deriving DecidableEq

/-- A black-box external engine. -/
def Engine := MmgCall → EngineResult

instance {ε α : Type} [DecidableEq ε] [DecidableEq α] : DecidableEq (Except ε α) :=
  fun a b =>
    match a, b with
    | Except.ok x, Except.ok y =>
      if h : x = y then Decidable.isTrue (congrArg Except.ok h)
      else Decidable.isFalse (fun hh => h (Except.ok.inj hh))
    | Except.error e, Except.error f =>
      if h : e = f then Decidable.isTrue (congrArg Except.error h)
      else Decidable.isFalse (fun hh => h (Except.error.inj hh))
    | Except.ok _, Except.error _ => Decidable.isFalse (fun hh => Except.noConfusion hh)
    | Except.error _, Except.ok _ => Decidable.isFalse (fun hh => Except.noConfusion hh)

/-! ## The adaptation driver (`generate_implicit_domain_volumetric_mesh`)

The per-iteration body, in source order: derive a default output name, apply
`handle_iterative`, dispatch on the metric, build the `.sol` directive next
to the input, invoke `mmg3d`, run `trim_unknown_keyword` on the output, and
carry `(input_file, output_file)` forward. Three exception paths of the
source are modelled:

* when `metric == "implicit_distance"` but `surf_file` is falsy, the local
  `surf` was never assigned, so `mesh.compute_implicit_distance(surf, ...)`
  raises `UnboundLocalError` — before the directive is written or the
  engine spawned;
* for any other metric the driver first converts the companion `.vtu`
  (`meshio.read` raises `FileNotFoundError` when it is absent) and then
  evaluates `print(mesh[metric])`: a float metric is never the name of a
  point-data array, so the lookup raises `KeyError`; a string metric is
  looked up among the mesh's arrays (`meshArrays`, external file content) —
  in every failing case no engine call occurs;
* after `run_mmg` — whose exit code and stderr are discarded unexamined —
  `trim_unknown_keyword(output_file, ...)` opens the output: if the engine
  wrote nothing, this raises `FileNotFoundError` and aborts the remaining
  iterations.

Reads of the caller's initial input mesh and of the surface (when truthy)
are assumed to succeed — the driver's caller contract — and every later
input is a file the previous iteration's `trim_unknown_keyword` just
opened. The run's value is the list of engine invocations actually
performed, paired with each invocation's result, plus the final outcome. -/

/-- Python truthiness of the `surf_file` argument (`if surf_file:`). -/
def surfTruthy : Option String → Bool
  | none => false
  | some s => s ≠ ""

/-- The metric dispatch of one iteration: from the iteration's input name,
either the input name to hand to the engine, or the exception the source
raises before any engine call. -/
def driverBranch (meshArrays : String → String → Bool) (vtuExists : String → Bool)
    (metric : PyVal) (surf_file : Option String) (input_file : String) :
    Except String String :=
  if metricIsImplicitDistance metric then
    if surfTruthy surf_file then Except.ok input_file
    else Except.error "UnboundLocalError: local variable surf referenced before assignment"
  else
    if vtuExists (pyReplace (splitextRoot input_file ++ ".mesh") ".mesh" ".vtu") then
      match metric with
      | PyVal.f _ => Except.error "KeyError: mesh[metric]"
      | PyVal.s name =>
        if meshArrays input_file name then Except.ok (splitextRoot input_file ++ ".mesh")
        else Except.error "KeyError: mesh[metric]"
    else Except.error "FileNotFoundError: missing .vtu companion"

/-- The structured engine invocation `run_mmg` assembles for one iteration. -/
def driverCall (inp3 outp : String) (memory_max : ℤ) (hausd hgrad hmin hmax : ℚ) : MmgCall :=
  ⟨inp3, splitextRoot inp3 ++ ".sol", outp, memory_max, hausd, hgrad, hmin, hmax⟩

def driverRunGo (engine : Engine) (meshArrays : String → String → Bool)
    (vtuExists : String → Bool) (metric : PyVal) (hausd hgrad hmin hmax : ℚ)
    (memory_max : ℤ) (surf_file : Option String) :
    String → Option String → Nat → Nat → List (MmgCall × EngineResult) × Except String Unit
  | _, _, _, 0 => ([], Except.ok ())
  | inp, out, iter, fuel + 1 =>
    match driverBranch meshArrays vtuExists metric surf_file
        (handle_iterative inp (handle_args_none_output_file inp out) iter).1 with
    | Except.error e => ([], Except.error e)
    | Except.ok inp3 =>
      let call := driverCall inp3
        (handle_iterative inp (handle_args_none_output_file inp out) iter).2
        memory_max hausd hgrad hmin hmax
      let res := engine call
      if res.wroteOutput then
        let rest := driverRunGo engine meshArrays vtuExists metric hausd hgrad hmin hmax
          memory_max surf_file inp3
          (some (handle_iterative inp (handle_args_none_output_file inp out) iter).2)
          (iter + 1) fuel
        ((call, res) :: rest.1, rest.2)
      else
        ([(call, res)], Except.error "FileNotFoundError: adapted output mesh missing")

/-- The keyword arguments of `generate_implicit_domain_volumetric_mesh`, in
the order of the Python signature. -/
structure GenArgs where
  input_file : String
  surf_file : Option String := none
  output_file : Option String := none
  metric : PyVal := .s "implicit_distance"
  hausd : ℚ := DEFAULT_HAUSD
  hgrad : ℚ := DEFAULT_HGRAD
  hmin : ℚ := DEFAULT_HMIN
  hmax : ℚ := DEFAULT_HMAX
  extract_domain : ℤ := DEFAULT_SUBDOMAIN
  memory_max : ℤ := DEFAULT_MEMORY_MAX
  refine_iterations : Nat := DEFAULT_MESH_ITERATIONS
deriving DecidableEq

/-- The driver: `for iter in range(0, refine_iterations + 1)` around the
body above, against an engine and the external file contents (`meshArrays`:
which point-data arrays each mesh file carries; `vtuExists`: which `.vtu`
companions exist). -/
def generate_implicit_domain_volumetric_mesh (engine : Engine)
    (meshArrays : String → String → Bool) (vtuExists : String → Bool) (a : GenArgs) :
    List (MmgCall × EngineResult) × Except String Unit :=
  driverRunGo engine meshArrays vtuExists a.metric a.hausd a.hgrad a.hmin a.hmax
    a.memory_max a.surf_file a.input_file a.output_file 0 (a.refine_iterations + 1)

/-- An external engine that succeeds, writing each requested output. -/
def alwaysOkEngine : Engine := fun _ => ⟨0, "", true⟩

/-- The engine invocations of a driver run against a succeeding engine. -/
def driverCalls (a : GenArgs) : List MmgCall :=
  (generate_implicit_domain_volumetric_mesh alwaysOkEngine (fun _ _ => true)
    (fun _ => true) a).1.map Prod.fst

/-- One-step unfolding of `driverRunGo` when the metric dispatch raises:
nothing is written and no engine call occurs. -/
theorem driverRunGo_step_error (engine : Engine) (meshArrays : String → String → Bool)
    (vtuExists : String → Bool) (metric : PyVal) (hausd hgrad hmin hmax : ℚ)
    (memory_max : ℤ) (surf_file : Option String) (inp : String) (out : Option String)
    (iter fuel : Nat) (e : String)
    (hbr : driverBranch meshArrays vtuExists metric surf_file
        (handle_iterative inp (handle_args_none_output_file inp out) iter).1
      = Except.error e) :
    driverRunGo engine meshArrays vtuExists metric hausd hgrad hmin hmax memory_max
        surf_file inp out iter (fuel + 1)
      = ([], Except.error e) := by
  simp only [driverRunGo]
  rw [hbr]

/-- One-step unfolding of `driverRunGo` when the metric dispatch succeeds:
the engine is invoked, its exit code is ignored, and the run continues
exactly when the engine wrote the output (`trim_unknown_keyword` opens it). -/
theorem driverRunGo_step_ok (engine : Engine) (meshArrays : String → String → Bool)
    (vtuExists : String → Bool) (metric : PyVal) (hausd hgrad hmin hmax : ℚ)
    (memory_max : ℤ) (surf_file : Option String) (inp : String) (out : Option String)
    (iter fuel : Nat) (inp3 : String)
    (hbr : driverBranch meshArrays vtuExists metric surf_file
        (handle_iterative inp (handle_args_none_output_file inp out) iter).1
      = Except.ok inp3) :
    driverRunGo engine meshArrays vtuExists metric hausd hgrad hmin hmax memory_max
        surf_file inp out iter (fuel + 1)
      = (if (engine (driverCall inp3
            (handle_iterative inp (handle_args_none_output_file inp out) iter).2
            memory_max hausd hgrad hmin hmax)).wroteOutput then
          ((driverCall inp3 (handle_iterative inp (handle_args_none_output_file inp out) iter).2
              memory_max hausd hgrad hmin hmax,
            engine (driverCall inp3
              (handle_iterative inp (handle_args_none_output_file inp out) iter).2
              memory_max hausd hgrad hmin hmax)) ::
            (driverRunGo engine meshArrays vtuExists metric hausd hgrad hmin hmax memory_max
              surf_file inp3
              (some (handle_iterative inp (handle_args_none_output_file inp out) iter).2)
              (iter + 1) fuel).1,
           (driverRunGo engine meshArrays vtuExists metric hausd hgrad hmin hmax memory_max
              surf_file inp3
              (some (handle_iterative inp (handle_args_none_output_file inp out) iter).2)
              (iter + 1) fuel).2)
        else
          ([(driverCall inp3 (handle_iterative inp (handle_args_none_output_file inp out) iter).2
              memory_max hausd hgrad hmin hmax,
            engine (driverCall inp3
              (handle_iterative inp (handle_args_none_output_file inp out) iter).2
              memory_max hausd hgrad hmin hmax))],
           Except.error "FileNotFoundError: adapted output mesh missing")) := by
  simp only [driverRunGo]
  rw [hbr]

/-- Claim C1: for every driver call with `refine_iterations = k` and every
iteration `1 ≤ n ≤ k`, the mesh handed to the engine in iteration `n` is the
output mesh of iteration `n - 1`, never iteration `n - 1`'s input. This fails
at `n = 1`: with input `bone_initial.mesh` and a defaulted output name,
iteration 0 adapts `bone_initial.mesh` into `bone_adapted.mesh`, but iteration
1 hands the engine `bone_initial.mesh` again — iteration 0's input — instead
of `bone_adapted.mesh`, because the `iter == 1` branch of `handle_iterative`
never advances the input name. -/
theorem iteration_one_reads_iteration_zero_input :
    (driverCalls { input_file := "bone_initial.mesh", surf_file := some "bone.ply",
                   refine_iterations := 1 }).map MmgCall.input_file
        = ["bone_initial.mesh", "bone_initial.mesh"] ∧
    (driverCalls { input_file := "bone_initial.mesh", surf_file := some "bone.ply",
                   refine_iterations := 1 }).map MmgCall.output_file
        = ["bone_adapted.mesh", "bone_adapted_iteration_1.mesh"] ∧
    ("bone_initial.mesh" : String) ≠ "bone_adapted.mesh" := by
  refine ⟨?_, ?_, ?_⟩ <;> decide

/-! ## The optimizer's call into the driver (`objective_function`)

`objective_function` invokes the driver as

  `generate_implicit_domain_volumetric_mesh(input_file, surf_file, output_file,
   hausd, hgrad, hmin, hmax, refine_iterations=0)`

with every argument but the last positional. The Python signature's fourth
positional parameter is `metric`, which the call omits, so the four trial
parameters each bind one slot early and `hmax` keeps its default. -/

/-- Stand-in for Python's float rendering inside f-strings; the claims never
inspect the digits, only whole file names and log lines. -/
def pyQStr (q : ℚ) : String := toString q

/-- The output path built by `objective_function`:
`(input.parent / ".optim" / input.name).with_name(stem + "_optim_‹params›.mesh")`. -/
def optimOutputFile (parent stem : String) (hausd hgrad hmin hmax : ℚ) : String :=
  parent ++ "/.optim/" ++ stem ++ "_optim_" ++ pyQStr hausd ++ "_" ++ pyQStr hgrad
    ++ "_" ++ pyQStr hmin ++ "_" ++ pyQStr hmax ++ ".mesh"

/-- The driver arguments that `objective_function`'s positional call actually
binds, slot by slot of the Python signature. -/
def objectiveGenArgs (hausd hgrad hmin hmax : ℚ) (inputParent inputStem surf : String) :
    GenArgs :=
  { input_file := inputParent ++ "/" ++ inputStem ++ ".mesh"
    surf_file := some surf
    output_file := some (optimOutputFile inputParent inputStem hausd hgrad hmin hmax)
    metric := PyVal.f hausd
    hausd := hgrad
    hgrad := hmin
    hmin := hmax
    hmax := DEFAULT_HMAX
    extract_domain := DEFAULT_SUBDOMAIN
    memory_max := DEFAULT_MEMORY_MAX
    refine_iterations := 0 }

/-- The metric dispatch always raises for a float metric: whatever the file
system holds, either the companion `.vtu` is missing (`FileNotFoundError`) or
the array lookup `mesh[metric]` fails (`KeyError`), both before any engine
call. -/
theorem driverBranch_float (meshArrays : String → String → Bool)
    (vtuExists : String → Bool) (q : ℚ) (surf_file : Option String) (input_file : String) :
    ∃ e, driverBranch meshArrays vtuExists (PyVal.f q) surf_file input_file
        = Except.error e := by
  unfold driverBranch
  rw [if_neg (show ¬ (metricIsImplicitDistance (PyVal.f q) = true) from Bool.false_ne_true)]
  by_cases hv : vtuExists (pyReplace (splitextRoot input_file ++ ".mesh") ".mesh" ".vtu") = true
  · rw [if_pos hv]
    exact ⟨"KeyError: mesh[metric]", rfl⟩
  · rw [if_neg hv]
    exact ⟨"FileNotFoundError: missing .vtu companion", rfl⟩

/-- Any driver run with a float metric raises in its first iteration without
invoking the engine. -/
theorem driverRunGo_float (engine : Engine) (meshArrays : String → String → Bool)
    (vtuExists : String → Bool) (q hausd hgrad hmin hmax : ℚ) (memory_max : ℤ)
    (surf_file : Option String) (inp : String) (out : Option String) (iter fuel : Nat) :
    ∃ e, driverRunGo engine meshArrays vtuExists (PyVal.f q) hausd hgrad hmin hmax
        memory_max surf_file inp out iter (fuel + 1) = ([], Except.error e) := by
  obtain ⟨e, he⟩ := driverBranch_float meshArrays vtuExists q surf_file
    (handle_iterative inp (handle_args_none_output_file inp out) iter).1
  exact ⟨e, driverRunGo_step_error engine meshArrays vtuExists (PyVal.f q) hausd hgrad hmin
    hmax memory_max surf_file inp out iter fuel e he⟩

theorem generate_float_metric (engine : Engine) (meshArrays : String → String → Bool)
    (vtuExists : String → Bool) (a : GenArgs) (q : ℚ) (hmetric : a.metric = PyVal.f q) :
    (generate_implicit_domain_volumetric_mesh engine meshArrays vtuExists a).1 = [] ∧
    ∃ e, (generate_implicit_domain_volumetric_mesh engine meshArrays vtuExists a).2
        = Except.error e := by
  obtain ⟨e, he⟩ := driverRunGo_float engine meshArrays vtuExists q a.hausd a.hgrad a.hmin
    a.hmax a.memory_max a.surf_file a.input_file a.output_file 0 a.refine_iterations
  unfold generate_implicit_domain_volumetric_mesh
  rw [hmetric, he]
  exact ⟨rfl, e, rfl⟩

/-- Claim C2: each optimizer trial's objective is claimed to be one
adaptation round with exactly the trial's parameter tuple
`(hausd, hgrad, hmin, hmax)`. In the code the positional call drops the
`metric` slot, so for the trial `(3, 13, 1, 50)` the driver receives
`metric = 3` — a float where a string belongs — and every parameter binds
one slot early, `hmax` silently defaulting to 100. The claimed round never
happens: whatever the engine and the surrounding files, the run raises
(`KeyError` at `print(mesh[metric])`, or `FileNotFoundError` at the
companion-`.vtu` read before it) without a single engine invocation. -/
theorem objective_call_shifts_parameters_into_metric :
    (objectiveGenArgs 3 13 1 50 "proj" "bone_initial" "bone.ply").metric = PyVal.f 3 ∧
    ((objectiveGenArgs 3 13 1 50 "proj" "bone_initial" "bone.ply").hausd,
     (objectiveGenArgs 3 13 1 50 "proj" "bone_initial" "bone.ply").hgrad,
     (objectiveGenArgs 3 13 1 50 "proj" "bone_initial" "bone.ply").hmin,
     (objectiveGenArgs 3 13 1 50 "proj" "bone_initial" "bone.ply").hmax)
        = ((13:ℚ), (1:ℚ), (50:ℚ), (100:ℚ)) ∧
    (((13:ℚ), (1:ℚ), (50:ℚ), (100:ℚ)) : ℚ × ℚ × ℚ × ℚ)
        ≠ ((3:ℚ), (13:ℚ), (1:ℚ), (50:ℚ)) ∧
    ∀ (engine : Engine) (meshArrays : String → String → Bool) (vtuExists : String → Bool),
      (generate_implicit_domain_volumetric_mesh engine meshArrays vtuExists
          (objectiveGenArgs 3 13 1 50 "proj" "bone_initial" "bone.ply")).1 = [] ∧
      ∃ e, (generate_implicit_domain_volumetric_mesh engine meshArrays vtuExists
          (objectiveGenArgs 3 13 1 50 "proj" "bone_initial" "bone.ply")).2
          = Except.error e := by
  refine ⟨by decide, by decide, by decide, ?_⟩
  intro engine meshArrays vtuExists
  exact generate_float_metric engine meshArrays vtuExists _ 3 rfl

/-! ## Engine exit codes and parameter validation (claims C4 and C5) -/

theorem driverBranch_implicit (meshArrays : String → String → Bool)
    (vtuExists : String → Bool) (surf_file : Option String) (input_file : String)
    (hs : surfTruthy surf_file = true) :
    driverBranch meshArrays vtuExists (PyVal.s "implicit_distance") surf_file input_file
      = Except.ok input_file := by
  unfold driverBranch
  rw [if_pos (show metricIsImplicitDistance (PyVal.s "implicit_distance") = true by decide),
    if_pos hs]

/-- A run on the implicit-distance metric with a truthy surface, against an
engine that always writes its output: all `fuel` iterations run, each engine
invocation carrying `hmin` and `hmax` verbatim, and the run returns
normally whatever the exit codes. -/
theorem driverRunGo_all_written (engine : Engine) (meshArrays : String → String → Bool)
    (vtuExists : String → Bool) (hausd hgrad hmin hmax : ℚ) (memory_max : ℤ)
    (surf_file : Option String) (hs : surfTruthy surf_file = true)
    (hw : ∀ c, (engine c).wroteOutput = true) :
    ∀ (fuel : Nat) (inp : String) (out : Option String) (iter : Nat),
    ∃ t, driverRunGo engine meshArrays vtuExists (PyVal.s "implicit_distance")
          hausd hgrad hmin hmax memory_max surf_file inp out iter fuel
        = (t, Except.ok ()) ∧
      t.length = fuel ∧
      ∀ x ∈ t, x.1.hmin = hmin ∧ x.1.hmax = hmax ∧ x.2 = engine x.1 := by
  intro fuel
  induction fuel with
  | zero =>
    intro inp out iter
    exact ⟨[], rfl, rfl, by simp⟩
  | succ n ih =>
    intro inp out iter
    obtain ⟨t, ht, hlen, hall⟩ := ih
      (handle_iterative inp (handle_args_none_output_file inp out) iter).1
      (some (handle_iterative inp (handle_args_none_output_file inp out) iter).2) (iter + 1)
    refine ⟨(driverCall (handle_iterative inp (handle_args_none_output_file inp out) iter).1
        (handle_iterative inp (handle_args_none_output_file inp out) iter).2
        memory_max hausd hgrad hmin hmax,
      engine (driverCall (handle_iterative inp (handle_args_none_output_file inp out) iter).1
        (handle_iterative inp (handle_args_none_output_file inp out) iter).2
        memory_max hausd hgrad hmin hmax)) :: t, ?_, ?_, ?_⟩
    · rw [driverRunGo_step_ok engine meshArrays vtuExists (PyVal.s "implicit_distance")
        hausd hgrad hmin hmax memory_max surf_file inp out iter n _
        (driverBranch_implicit meshArrays vtuExists surf_file _ hs), hw, if_pos rfl, ht]
    · simpa using hlen
    · intro x hx
      rcases List.mem_cons.mp hx with h | h
      · subst h
        exact ⟨rfl, rfl, rfl⟩
      · exact hall x h

/-- A run on the implicit-distance metric against an engine that never
writes its output: the first iteration's engine call happens — its exit code
ignored — and then `trim_unknown_keyword` raises `FileNotFoundError` on the
missing output, aborting the remaining iterations. -/
theorem driverRunGo_none_written (engine : Engine) (meshArrays : String → String → Bool)
    (vtuExists : String → Bool) (hausd hgrad hmin hmax : ℚ) (memory_max : ℤ)
    (surf_file : Option String) (hs : surfTruthy surf_file = true)
    (hw : ∀ c, (engine c).wroteOutput = false)
    (inp : String) (out : Option String) (iter fuel : Nat) :
    ∃ c, driverRunGo engine meshArrays vtuExists (PyVal.s "implicit_distance")
        hausd hgrad hmin hmax memory_max surf_file inp out iter (fuel + 1)
      = ([(c, engine c)], Except.error "FileNotFoundError: adapted output mesh missing")
      ∧ c.hmin = hmin ∧ c.hmax = hmax := by
  refine ⟨driverCall (handle_iterative inp (handle_args_none_output_file inp out) iter).1
      (handle_iterative inp (handle_args_none_output_file inp out) iter).2
      memory_max hausd hgrad hmin hmax, ?_, rfl, rfl⟩
  rw [driverRunGo_step_ok engine meshArrays vtuExists (PyVal.s "implicit_distance")
    hausd hgrad hmin hmax memory_max surf_file inp out iter fuel _
    (driverBranch_implicit meshArrays vtuExists surf_file _ hs), hw,
    if_neg Bool.false_ne_true]

/-- An external engine stub that exits nonzero with text on stderr, writing
no output mesh. -/
def alwaysFailEngine : Engine := fun _ => ⟨1, "stub: fatal adaptation failure", false⟩

/-- An external engine stub that exits zero but writes no output mesh. -/
def silentNoOutputEngine : Engine := fun _ => ⟨0, "", false⟩

/-- A two-round driver argument set with integral parameters. -/
def c4cxArgs : GenArgs :=
  { input_file := "bone_initial.mesh", surf_file := some "bone.ply",
    hausd := 2, hgrad := 3, hmin := 4, hmax := 5, refine_iterations := 1 }

/-- Claim C4 counterexample: with a stub that always exits nonzero writing
nothing, a `refine_iterations = 1` run performs the first engine call (the
exit code is never inspected) and then aborts with the `FileNotFoundError`
that `trim_unknown_keyword` raises on the missing output — not an
`AdaptationError`, and the stub's stderr text appears nowhere in the error.
A stub exiting zero without writing produces the identical abort, showing
the exit status plays no role at all. -/
theorem engine_failure_no_adaptation_error_counterexample :
    generate_implicit_domain_volumetric_mesh alwaysFailEngine (fun _ _ => true)
        (fun _ => true) c4cxArgs
      = ([(⟨"bone_initial.mesh", "bone_initial.sol", "bone_adapted.mesh", 16000, 2, 3, 4, 5⟩,
           ⟨1, "stub: fatal adaptation failure", false⟩)],
         Except.error "FileNotFoundError: adapted output mesh missing") ∧
    ("FileNotFoundError: adapted output mesh missing" : String)
      ≠ "stub: fatal adaptation failure" ∧
    generate_implicit_domain_volumetric_mesh silentNoOutputEngine (fun _ _ => true)
        (fun _ => true) c4cxArgs
      = ([(⟨"bone_initial.mesh", "bone_initial.sol", "bone_adapted.mesh", 16000, 2, 3, 4, 5⟩,
           ⟨0, "", false⟩)],
         Except.error "FileNotFoundError: adapted output mesh missing") := by
  refine ⟨?_, ?_, ?_⟩ <;> decide

/-- Claim C4 amended: the driver never inspects the engine's exit code or
stderr. A nonzero-exiting engine that still writes its outputs lets all
`refine_iterations + 1` iterations run and the call return normally; one
that writes nothing triggers, right after its first invocation, the
`FileNotFoundError` of `trim_unknown_keyword` opening the missing output —
no `AdaptationError` (the type exists nowhere in the repository) and no
stderr content is ever surfaced. -/
theorem driver_ignores_engine_exit_code (engine : Engine)
    (meshArrays : String → String → Bool) (vtuExists : String → Bool) (a : GenArgs)
    (hmetric : a.metric = PyVal.s "implicit_distance")
    (hsurf : surfTruthy a.surf_file = true)
    (hfail : ∀ c, (engine c).exitCode ≠ 0) :
    ((∀ c, (engine c).wroteOutput = true) →
      ∃ t, generate_implicit_domain_volumetric_mesh engine meshArrays vtuExists a
          = (t, Except.ok ()) ∧ t.length = a.refine_iterations + 1) ∧
    ((∀ c, (engine c).wroteOutput = false) →
      ∃ c, generate_implicit_domain_volumetric_mesh engine meshArrays vtuExists a
          = ([(c, engine c)],
             Except.error "FileNotFoundError: adapted output mesh missing")) := by
  constructor
  · intro hw
    obtain ⟨t, ht, hlen, -⟩ := driverRunGo_all_written engine meshArrays vtuExists
      a.hausd a.hgrad a.hmin a.hmax a.memory_max a.surf_file hsurf hw
      (a.refine_iterations + 1) a.input_file a.output_file 0
    refine ⟨t, ?_, hlen⟩
    unfold generate_implicit_domain_volumetric_mesh
    rw [hmetric]
    exact ht
  · intro hw
    obtain ⟨c, hc, -, -⟩ := driverRunGo_none_written engine meshArrays vtuExists
      a.hausd a.hgrad a.hmin a.hmax a.memory_max a.surf_file hsurf hw
      a.input_file a.output_file 0 a.refine_iterations
    refine ⟨c, ?_⟩
    unfold generate_implicit_domain_volumetric_mesh
    rw [hmetric]
    exact hc

/-- Witness for `driver_ignores_engine_exit_code` at the always-failing
stub. -/
theorem driver_ignores_engine_exit_code_witness :
    (c4cxArgs.metric = PyVal.s "implicit_distance" ∧
      surfTruthy c4cxArgs.surf_file = true ∧
      ∀ c, (alwaysFailEngine c).exitCode ≠ 0) ∧
    (((∀ c, (alwaysFailEngine c).wroteOutput = true) →
      ∃ t, generate_implicit_domain_volumetric_mesh alwaysFailEngine (fun _ _ => true)
          (fun _ => true) c4cxArgs
          = (t, Except.ok ()) ∧ t.length = c4cxArgs.refine_iterations + 1) ∧
    ((∀ c, (alwaysFailEngine c).wroteOutput = false) →
      ∃ c, generate_implicit_domain_volumetric_mesh alwaysFailEngine (fun _ _ => true)
          (fun _ => true) c4cxArgs
          = ([(c, alwaysFailEngine c)],
             Except.error "FileNotFoundError: adapted output mesh missing"))) :=
  ⟨⟨rfl, by decide, fun _ => Nat.one_ne_zero⟩,
   driver_ignores_engine_exit_code alwaysFailEngine (fun _ _ => true) (fun _ => true)
     c4cxArgs rfl (by decide) (fun _ => Nat.one_ne_zero)⟩

/-- A single-round driver argument set with `hmin = 5 > 1 = hmax`. -/
def c5args : GenArgs :=
  { input_file := "bone_initial.mesh", surf_file := some "bone.ply",
    hausd := 2, hgrad := 3, hmin := 5, hmax := 1, refine_iterations := 0 }

/-- Claim C5 counterexample: calling the driver with `hmin = 5 > 1 = hmax`
(claimed to raise a validation error before any external process is spawned)
spawns the engine anyway — the single invocation carries the invalid pair
verbatim — and the run returns normally. -/
theorem hmin_gt_hmax_engine_still_spawned_counterexample :
    (driverCalls c5args).map (fun c => (c.hmin, c.hmax)) = [((5:ℚ), (1:ℚ))] ∧
    (generate_implicit_domain_volumetric_mesh alwaysOkEngine (fun _ _ => true)
        (fun _ => true) c5args).2 = Except.ok () := by
  refine ⟨?_, ?_⟩ <;> decide

/-- Claim C5 amended: the driver performs no parameter validation at all —
even with `hmin > hmax`, a well-formed run (surface supplied, engine writing
its outputs) spawns the engine for every iteration with the caller's `hmin`
and `hmax` verbatim and returns normally; no error is raised before or
after spawning. -/
theorem driver_performs_no_parameter_validation (engine : Engine)
    (meshArrays : String → String → Bool) (vtuExists : String → Bool) (a : GenArgs)
    (h : a.hmin > a.hmax) (hmetric : a.metric = PyVal.s "implicit_distance")
    (hsurf : surfTruthy a.surf_file = true)
    (hw : ∀ c, (engine c).wroteOutput = true) :
    ∃ t, generate_implicit_domain_volumetric_mesh engine meshArrays vtuExists a
        = (t, Except.ok ()) ∧
      t.length = a.refine_iterations + 1 ∧
      ∀ x ∈ t, x.1.hmin = a.hmin ∧ x.1.hmax = a.hmax := by
  obtain ⟨t, ht, hlen, hall⟩ := driverRunGo_all_written engine meshArrays vtuExists
    a.hausd a.hgrad a.hmin a.hmax a.memory_max a.surf_file hsurf hw
    (a.refine_iterations + 1) a.input_file a.output_file 0
  refine ⟨t, ?_, hlen, fun x hx => ⟨(hall x hx).1, (hall x hx).2.1⟩⟩
  unfold generate_implicit_domain_volumetric_mesh
  rw [hmetric]
  exact ht

/-- Witness for `driver_performs_no_parameter_validation` at `hmin = 5`,
`hmax = 1`. -/
theorem driver_performs_no_parameter_validation_witness :
    (c5args.hmin > c5args.hmax ∧ c5args.metric = PyVal.s "implicit_distance" ∧
      surfTruthy c5args.surf_file = true ∧
      ∀ c, (alwaysOkEngine c).wroteOutput = true) ∧
    ∃ t, generate_implicit_domain_volumetric_mesh alwaysOkEngine (fun _ _ => true)
        (fun _ => true) c5args = (t, Except.ok ()) ∧
      t.length = c5args.refine_iterations + 1 ∧
      ∀ x ∈ t, x.1.hmin = c5args.hmin ∧ x.1.hmax = c5args.hmax :=
  ⟨⟨by decide, rfl, by decide, fun _ => rfl⟩,
   driver_performs_no_parameter_validation alwaysOkEngine (fun _ _ => true) (fun _ => true)
     c5args (by decide) rfl (by decide) (fun _ => rfl)⟩

/-! ## Decimal rendering and parsing

Python's `f"{len(signed_distances)}"` renders a nonnegative integer in
decimal. The helpers below reimplement that rendering (fuel-based, so it
reduces) together with a parser, for the round-trip claims. -/

/-- Is `c` one of the characters '0'-'9'? -/
def isDigitChar (c : Char) : Bool := 48 ≤ c.toNat && c.toNat ≤ 57

/-- The decimal digit character for `n % 10`. -/
def digitChar (n : Nat) : Char :=
  if n = 0 then '0' else if n = 1 then '1' else if n = 2 then '2' else if n = 3 then '3'
  else if n = 4 then '4' else if n = 5 then '5' else if n = 6 then '6' else if n = 7 then '7'
  else if n = 8 then '8' else '9'

/-- Decimal digits of `n`, least significant first; `fuel ≥ n` suffices. -/
def natDigitsRevFuel : Nat → Nat → List Char
  | 0, _ => []
  | fuel + 1, n => if n = 0 then [] else digitChar (n % 10) :: natDigitsRevFuel fuel (n / 10)

/-- Decimal rendering of a natural number, as `str(int)` produces it. -/
def natToDecimal (n : Nat) : String :=
  if n = 0 then "0" else String.mk (natDigitsRevFuel n n).reverse

/-- Numeric value of a digit character. -/
def digitVal (c : Char) : Nat := c.toNat - 48

/-- Value of a most-significant-first digit string. -/
def decimalToNat (l : List Char) : Nat := l.foldl (fun acc c => acc * 10 + digitVal c) 0

/-- Parse a string as a nonnegative decimal integer. -/
def decToNatOpt (s : String) : Option Nat :=
  if s.toList ≠ [] ∧ s.toList.all isDigitChar then some (decimalToNat s.toList) else none

/-- Value of a least-significant-first digit list. -/
def decimalValueRev : List Char → Nat
  | [] => 0
  | c :: r => digitVal c + 10 * decimalValueRev r

theorem digitVal_digitChar {n : Nat} (h : n < 10) : digitVal (digitChar n) = n := by
  interval_cases n <;> decide

theorem isDigit_digitChar (n : Nat) : isDigitChar (digitChar n) = true := by
  unfold digitChar
  split_ifs <;> decide

theorem decimalValueRev_digits :
    ∀ fuel n : Nat, n ≤ fuel → decimalValueRev (natDigitsRevFuel fuel n) = n := by
  intro fuel
  induction fuel with
  | zero =>
    intro n h
    interval_cases n
    rfl
  | succ m ih =>
    intro n h
    by_cases h0 : n = 0
    · subst h0; rfl
    · have hd : n / 10 ≤ m := by
        have := Nat.div_lt_self (Nat.pos_of_ne_zero h0) (show 1 < 10 by norm_num)
        omega
      simp only [natDigitsRevFuel, if_neg h0, decimalValueRev]
      rw [ih _ hd, digitVal_digitChar (Nat.mod_lt n (by norm_num))]
      omega

theorem natDigitsRevFuel_digits :
    ∀ fuel n : Nat, (natDigitsRevFuel fuel n).all isDigitChar = true := by
  intro fuel
  induction fuel with
  | zero => intro n; rfl
  | succ m ih =>
    intro n
    by_cases h0 : n = 0
    · subst h0; rfl
    · simp only [natDigitsRevFuel, if_neg h0, List.all_cons, ih, isDigit_digitChar,
        Bool.and_self]

theorem natToDecimal_toList_ne_nil (n : Nat) : (natToDecimal n).toList ≠ [] := by
  unfold natToDecimal
  by_cases h0 : n = 0
  · subst h0; decide
  · rw [if_neg h0]
    cases n with
    | zero => exact absurd rfl h0
    | succ m =>
      show ((natDigitsRevFuel (m + 1) (m + 1)).reverse : List Char) ≠ []
      simp [natDigitsRevFuel]

theorem natToDecimal_all_digits (n : Nat) : (natToDecimal n).toList.all isDigitChar = true := by
  unfold natToDecimal
  by_cases h0 : n = 0
  · subst h0; decide
  · rw [if_neg h0]
    show ((natDigitsRevFuel n n).reverse.all isDigitChar) = true
    rw [List.all_reverse]
    exact natDigitsRevFuel_digits n n

theorem decimalToNat_reverse (l : List Char) : decimalToNat l.reverse = decimalValueRev l := by
  induction l with
  | nil => rfl
  | cons c r ih =>
    rw [List.reverse_cons]
    unfold decimalToNat at *
    rw [List.foldl_append, ih]
    show decimalValueRev r * 10 + digitVal c = decimalValueRev (c :: r)
    rw [show decimalValueRev (c :: r) = digitVal c + 10 * decimalValueRev r from rfl]
    omega

theorem decToNatOpt_natToDecimal (n : Nat) : decToNatOpt (natToDecimal n) = some n := by
  unfold decToNatOpt
  rw [if_pos ⟨natToDecimal_toList_ne_nil n, natToDecimal_all_digits n⟩]
  congr 1
  by_cases h0 : n = 0
  · subst h0; decide
  · unfold natToDecimal
    rw [if_neg h0]
    show decimalToNat (natDigitsRevFuel n n).reverse = n
    rw [decimalToNat_reverse]
    exact decimalValueRev_digits n n le_rfl

/-! ## The directive writer (`generate_sol_file`) and the `.sol` format

`generate_sol_file` opens `splitext(input)[0] + ".sol"` for writing and issues
one `file.write` per line: three fixed header lines, the value count, the
cardinality line `"1 1"`, one line `f"{distance} \n"` per value, and the
`"End"` marker. A file system is a partial map from path to list of lines;
each value is carried as the token Python's float `repr` would produce (that
rendering round-trips by a documented property of Python floats, outside this
repository, so the tokens are the faithful unit of comparison). -/

/-- The `.sol` path derived from the input mesh path. -/
def sol_file_of (input_file : String) : String := splitextRoot input_file ++ ".sol"

/-- The complete sequence of lines `generate_sol_file` writes, in write order. -/
def solFileLines (signed_distances : List String) : List String :=
  "MeshVersionFormatted 2" :: "Dimension 3" :: "SolAtVertices" ::
    natToDecimal signed_distances.length :: "1 1" ::
    (signed_distances.map (fun d => d ++ " ") ++ ["End"])

/-- `generate_sol_file`: writes the directive next to the input mesh and
returns the updated file system with the `.sol` path. -/
def generate_sol_file (fs : String → Option (List String)) (input_file : String)
    (signed_distances : List String) : (String → Option (List String)) × String :=
  (fun q => if q = sol_file_of input_file then some (solFileLines signed_distances) else fs q,
   sol_file_of input_file)

/-- The file-system state when `generate_sol_file` is interrupted after `j` of
its `write` calls have completed: `open(sol_file, "w")` has already created
(or truncated) the file at the final path, which now holds the first `j`
lines. -/
def generate_sol_file_interrupted (fs : String → Option (List String)) (input_file : String)
    (signed_distances : List String) (j : Nat) : String → Option (List String) :=
  fun q =>
    if q = sol_file_of input_file then some ((solFileLines signed_distances).take j) else fs q

/-- Claim C6 counterexample: the writer is claimed to be all-or-nothing, yet a
run interrupted after three of its write calls leaves, at the final `.sol`
path, a file holding just the three fixed header lines — neither absent nor
the complete directive. The writer opens the destination path directly; no
temporary path or atomic rename exists in the source. -/
theorem sol_file_interrupted_write_counterexample :
    generate_sol_file_interrupted (fun _ => none) "bone_initial.mesh" ["1.25", "-0.5"] 3
        "bone_initial.sol"
      = some ["MeshVersionFormatted 2", "Dimension 3", "SolAtVertices"] ∧
    (["MeshVersionFormatted 2", "Dimension 3", "SolAtVertices"] : List String)
      ≠ solFileLines ["1.25", "-0.5"] ∧
    (some ["MeshVersionFormatted 2", "Dimension 3", "SolAtVertices"]
      : Option (List String)) ≠ none := by
  refine ⟨?_, ?_, ?_⟩ <;> decide

/-- Claim C6 amended: a completed call leaves the complete directive at the
returned path, but writing is not all-or-nothing: the writer opens the final
path directly and writes line by line, so an interruption after any proper
prefix of its writes leaves a partial directive file on disk at that path. -/
theorem sol_file_write_not_atomic (fs : String → Option (List String)) (input_file : String)
    (sds : List String) (j : Nat) (h : j < (solFileLines sds).length) :
    (generate_sol_file fs input_file sds).1 (sol_file_of input_file)
        = some (solFileLines sds) ∧
    generate_sol_file_interrupted fs input_file sds j (sol_file_of input_file)
        = some ((solFileLines sds).take j) ∧
    (solFileLines sds).take j ≠ solFileLines sds := by
  refine ⟨by simp [generate_sol_file], by simp [generate_sol_file_interrupted], ?_⟩
  intro heq
  have hlen := congrArg List.length heq
  rw [List.length_take] at hlen
  omega

/-- Witness for `sol_file_write_not_atomic`: one value, interrupted after two
writes. -/
theorem sol_file_write_not_atomic_witness :
    2 < (solFileLines ["1.25"]).length ∧
    ((generate_sol_file (fun _ => none) "bone_initial.mesh" ["1.25"]).1
          (sol_file_of "bone_initial.mesh")
        = some (solFileLines ["1.25"]) ∧
      generate_sol_file_interrupted (fun _ => none) "bone_initial.mesh" ["1.25"] 2
          (sol_file_of "bone_initial.mesh")
        = some ((solFileLines ["1.25"]).take 2) ∧
      (solFileLines ["1.25"]).take 2 ≠ solFileLines ["1.25"]) :=
  ⟨by decide,
   sol_file_write_not_atomic (fun _ => none) "bone_initial.mesh" ["1.25"] 2 (by decide)⟩

/-! ## Reading the directive back (claim C7) -/

/-- Remove trailing space characters, as parsing a numeric token with
Python's `float` (or any whitespace-tolerant reader) does. -/
def trimTrailingSpaces (s : String) : String :=
  String.mk ((s.toList.reverse.dropWhile (fun c => c = ' ')).reverse)

/-- Modelled from the spec: a reader of the directive (`.sol`) text format.
The consumer of this format is the external adaptation engine, which is not
part of the repository, so the reader follows the spec's description of the
format — fixed header, declared value count, field cardinality line, one
value per line, explicit `End` marker — and accepts a value line by stripping
the trailing whitespace around its numeric token. -/
def readSolLines (lines : List String) : Option (Nat × List String) :=
  match lines with
  | l0 :: l1 :: l2 :: cnt :: l4 :: rest =>
    if l0 = "MeshVersionFormatted 2" ∧ l1 = "Dimension 3" ∧ l2 = "SolAtVertices" ∧ l4 = "1 1"
    then
      (decToNatOpt cnt).bind (fun n =>
        if rest.length = n + 1 ∧ rest.drop n = ["End"] then
          some (n, (rest.take n).map trimTrailingSpaces)
        else none)
    else none
  | _ => none

theorem readSolLines_cons (l0 l1 l2 cnt l4 : String) (rest : List String) :
    readSolLines (l0 :: l1 :: l2 :: cnt :: l4 :: rest)
      = if l0 = "MeshVersionFormatted 2" ∧ l1 = "Dimension 3" ∧ l2 = "SolAtVertices" ∧ l4 = "1 1"
        then
          (decToNatOpt cnt).bind (fun n =>
            if rest.length = n + 1 ∧ rest.drop n = ["End"] then
              some (n, (rest.take n).map trimTrailingSpaces)
            else none)
        else none := rfl

theorem trimTrailing_append_space (d : String) (h : d.toList.getLast? ≠ some ' ') :
    trimTrailingSpaces (d ++ " ") = d := by
  unfold trimTrailingSpaces
  have hd : (d ++ " ").toList = d.toList ++ [' '] := by
    simp [String.toList, String.data_append]
  rw [hd, List.reverse_append]
  show ((([' '].reverse ++ d.toList.reverse).dropWhile (fun c => c = ' ')).reverse
      : List Char).asString = d
  have h1 : ([' '].reverse ++ d.toList.reverse : List Char) = ' ' :: d.toList.reverse := rfl
  rw [h1, List.dropWhile_cons_of_pos (by decide)]
  have h2 : (d.toList.reverse.dropWhile (fun c => c = ' ')) = d.toList.reverse := by
    cases hrev : d.toList.reverse with
    | nil => rfl
    | cons c t =>
      have hhead : d.toList.getLast? = some c := by
        rw [← List.head?_reverse, hrev]
        rfl
      have hc : c ≠ ' ' := by
        intro hc
        exact h (hc ▸ hhead)
      rw [List.dropWhile_cons_of_neg (by simpa using hc)]
  rw [h2, List.reverse_reverse]
  cases d
  rfl

theorem map_trim_append_space (sds : List String)
    (h : ∀ d ∈ sds, d.toList.getLast? ≠ some ' ') :
    (sds.map (fun d => d ++ " ")).map trimTrailingSpaces = sds := by
  induction sds with
  | nil => rfl
  | cons d rest ih =>
    simp only [List.map_cons]
    rw [trimTrailing_append_space d (h d (List.mem_cons_self d rest)),
      ih (fun x hx => h x (List.mem_cons_of_mem d hx))]

/-- Claim C7: writing a directive for a scalar field and reading the file
back reproduces the field's values exactly, and the value count declared in
the header equals the number of value lines, which equals the field's length
(the reader returns that common count). Values are carried as numeric tokens;
the hypothesis — no token ends in a space — holds for every rendering of a
float. -/
theorem sol_file_roundtrip (sds : List String)
    (h : ∀ d ∈ sds, d.toList.getLast? ≠ some ' ') :
    readSolLines (solFileLines sds) = some (sds.length, sds) := by
  show readSolLines ("MeshVersionFormatted 2" :: "Dimension 3" :: "SolAtVertices" ::
      natToDecimal sds.length :: "1 1" :: (sds.map (fun d => d ++ " ") ++ ["End"]))
    = some (sds.length, sds)
  rw [readSolLines_cons, if_pos ⟨rfl, rfl, rfl, rfl⟩, decToNatOpt_natToDecimal,
    Option.some_bind]
  have hlenmap : (sds.map (fun d => d ++ " ")).length = sds.length := List.length_map sds _
  rw [if_pos ⟨by simp, List.drop_left' hlenmap⟩, List.take_left' hlenmap]
  rw [map_trim_append_space sds h]

/-- Witness for `sol_file_roundtrip` on a concrete two-value field. -/
theorem sol_file_roundtrip_witness :
    (∀ d ∈ (["1.25", "-0.5"] : List String), d.toList.getLast? ≠ some ' ') ∧
    readSolLines (solFileLines ["1.25", "-0.5"]) = some (2, ["1.25", "-0.5"]) :=
  ⟨by decide, sol_file_roundtrip ["1.25", "-0.5"] (by decide)⟩

/-! ## Trial-log line rendering (`objective_function`'s `file.write`)

Each completed trial appends one line:

  `f"{now} - hausd: {hausd:.4f}, hgrad: {hgrad:.4f}, hmin: {hmin:.4f},
    hmax: {hmax:.4f}, meshing time: {t:.2f} s, RMSE: {rmse:.4f}\n"`

`datetime.now().strftime('%Y-%m-%d %H:%M:%S')` renders six zero-padded
decimal fields. Fixed-point rendering of a float is modelled on `ℚ` with
round-half-up at the requested precision; Python rounds the underlying IEEE
double half-even, which can differ in the final digit only — no claim here
depends on the digit values, only on the character shape of the token. -/

structure LogTime where
  y : Nat
  mo : Nat
  d : Nat
  hh : Nat
  mi : Nat
  ss : Nat
deriving DecidableEq

/-- `datetime` field ranges (strftime pads each to the shown width). -/
def tsBounds (t : LogTime) : Prop :=
  t.y < 10000 ∧ t.mo < 100 ∧ t.d < 100 ∧ t.hh < 100 ∧ t.mi < 100 ∧ t.ss < 100

/-- Zero-padded decimal digits of `n`, at least `width` characters. -/
def padDigits (width n : Nat) : List Char :=
  List.replicate (width - (natToDecimal n).toList.length) '0' ++ (natToDecimal n).toList

/-- The characters of `strftime('%Y-%m-%d %H:%M:%S')`. -/
def fmtTimestampList (t : LogTime) : List Char :=
  padDigits 4 t.y ++ '-' :: (padDigits 2 t.mo ++ '-' :: (padDigits 2 t.d ++ ' ' ::
    (padDigits 2 t.hh ++ ':' :: (padDigits 2 t.mi ++ ':' :: padDigits 2 t.ss))))

/-- The characters of `format(q, '.‹prec›f')`: optional sign, integer part,
dot, exactly `prec` fraction digits. -/
def fmtFixedList (prec : Nat) (q : ℚ) : List Char :=
  (if q < 0 then ['-'] else [])
    ++ ((natToDecimal (((⌊|q| * (10:ℚ)^prec + 1/2⌋).toNat) / 10^prec)).toList
      ++ '.' :: padDigits prec (((⌊|q| * (10:ℚ)^prec + 1/2⌋).toNat) % 10^prec))

/-- The literal segments of a trial-log line. -/
def litHausd : List Char := [' ', '-', ' ', 'h', 'a', 'u', 's', 'd', ':', ' ']

def litHgrad : List Char := [',', ' ', 'h', 'g', 'r', 'a', 'd', ':', ' ']

def litHminL : List Char := [',', ' ', 'h', 'm', 'i', 'n', ':', ' ']

def litHmaxL : List Char := [',', ' ', 'h', 'm', 'a', 'x', ':', ' ']

def litTime : List Char :=
  [',', ' ', 'm', 'e', 's', 'h', 'i', 'n', 'g', ' ', 't', 'i', 'm', 'e', ':', ' ']

def litRmse : List Char := [' ', 's', ',', ' ', 'R', 'M', 'S', 'E', ':', ' ']

/-- The characters of one trial-log line (without the trailing newline; the
log is modelled as a list of lines, one per `file.write` call). -/
def trialLogLineList (t : LogTime) (hausd hgrad hmin hmax meshTime rmse : ℚ) : List Char :=
  fmtTimestampList t ++ (litHausd ++ (fmtFixedList 4 hausd ++ (litHgrad
    ++ (fmtFixedList 4 hgrad ++ (litHminL ++ (fmtFixedList 4 hmin ++ (litHmaxL
    ++ (fmtFixedList 4 hmax ++ (litTime ++ (fmtFixedList 2 meshTime
    ++ (litRmse ++ fmtFixedList 4 rmse)))))))))))

/-- One trial-log line as a string. -/
def trialLogLine (t : LogTime) (hausd hgrad hmin hmax meshTime rmse : ℚ) : String :=
  String.mk (trialLogLineList t hausd hgrad hmin hmax meshTime rmse)

/-! ## Parsing a trial-log line back

A reader for the audit-trail format: 19 timestamp characters, then the six
labelled numeric fields. A numeric token is a maximal run of sign, digit and
dot characters. -/

/-- Characters that occur in a strftime timestamp. -/
def tsChar (c : Char) : Bool := isDigitChar c || c = '-' || c = ' ' || c = ':'

/-- Characters that occur in a fixed-point numeric token. -/
def numChar (c : Char) : Bool := isDigitChar c || c = '-' || c = '.'

/-- Consume an expected literal segment. -/
def expectLit (lit l : List Char) : Option (List Char) :=
  if l.take lit.length = lit then some (l.drop lit.length) else none

/-- Parse `digits.digits` as a rational. -/
def parseUnsignedFixed (l : List Char) : Option ℚ :=
  if l.takeWhile isDigitChar = [] then none
  else if (l.dropWhile isDigitChar).take 1 = ['.']
      ∧ ((l.dropWhile isDigitChar).drop 1) ≠ []
      ∧ ((l.dropWhile isDigitChar).drop 1).all isDigitChar then
    some ((decimalToNat (l.takeWhile isDigitChar) : ℚ)
      + (decimalToNat ((l.dropWhile isDigitChar).drop 1) : ℚ)
        / (10:ℚ) ^ ((l.dropWhile isDigitChar).drop 1).length)
  else none

/-- Parse an optionally signed fixed-point token. -/
def parseFixedTok (l : List Char) : Option ℚ :=
  if l.headD 'x' = '-' then (parseUnsignedFixed (l.drop 1)).map (fun q => -q)
  else parseUnsignedFixed l

/-- Parse a numeric field: the maximal numeric-character run, returning the
value and the remainder. -/
def parseNumField (l : List Char) : Option (ℚ × List Char) :=
  (parseFixedTok (l.takeWhile numChar)).map (fun q => (q, l.dropWhile numChar))

/-- Parse a full trial-log line into its timestamp string and six numbers. -/
def parseTrialLineChars (l : List Char) : Option (String × List ℚ) :=
  if (l.take 19).length = 19 ∧ (l.take 19).all tsChar then
    (expectLit litHausd (l.drop 19)).bind (fun r1 =>
      (parseNumField r1).bind (fun p1 =>
        (expectLit litHgrad p1.2).bind (fun r2 =>
          (parseNumField r2).bind (fun p2 =>
            (expectLit litHminL p2.2).bind (fun r3 =>
              (parseNumField r3).bind (fun p3 =>
                (expectLit litHmaxL p3.2).bind (fun r4 =>
                  (parseNumField r4).bind (fun p4 =>
                    (expectLit litTime p4.2).bind (fun r5 =>
                      (parseNumField r5).bind (fun p5 =>
                        (expectLit litRmse p5.2).bind (fun r6 =>
                          (parseNumField r6).bind (fun p6 =>
                            if p6.2 = [] then
                              some (String.mk (l.take 19),
                                [p1.1, p2.1, p3.1, p4.1, p5.1, p6.1])
                            else none))))))))))))
  else none

def parseTrialLine (s : String) : Option (String × List ℚ) := parseTrialLineChars s.toList

/-! ### Shape lemmas for the renderings -/

theorem natToDecimal_mem (n : Nat) : ∀ a ∈ (natToDecimal n).toList, isDigitChar a = true := by
  have h := natToDecimal_all_digits n
  rw [List.all_eq_true] at h
  exact h

theorem padDigits_mem (w n : Nat) : ∀ a ∈ padDigits w n, isDigitChar a = true := by
  intro a ha
  rcases List.mem_append.mp ha with h | h
  · rw [List.eq_of_mem_replicate h]
    decide
  · exact natToDecimal_mem n a h

theorem natDigitsRevFuel_length_le :
    ∀ fuel n k : Nat, n < 10 ^ k → (natDigitsRevFuel fuel n).length ≤ k := by
  intro fuel
  induction fuel with
  | zero =>
    intro n k _
    simp [natDigitsRevFuel]
  | succ m ih =>
    intro n k hk
    by_cases h0 : n = 0
    · subst h0
      simp [natDigitsRevFuel]
    · cases k with
      | zero =>
        exfalso
        rw [pow_zero] at hk
        omega
      | succ k =>
        have hdiv : n / 10 < 10 ^ k := by
          rw [Nat.div_lt_iff_lt_mul (by norm_num)]
          calc n < 10 ^ (k + 1) := hk
          _ = 10 ^ k * 10 := by rw [pow_succ]
        simp only [natDigitsRevFuel, if_neg h0, List.length_cons]
        exact Nat.succ_le_succ (ih (n / 10) k hdiv)

theorem natToDecimal_length_le (n k : Nat) (hk : 0 < k) (h : n < 10 ^ k) :
    (natToDecimal n).toList.length ≤ k := by
  unfold natToDecimal
  by_cases h0 : n = 0
  · subst h0
    simpa using hk
  · rw [if_neg h0]
    show (natDigitsRevFuel n n).reverse.length ≤ k
    rw [List.length_reverse]
    exact natDigitsRevFuel_length_le n n k h

theorem padDigits_length (w n : Nat) (h : (natToDecimal n).toList.length ≤ w) :
    (padDigits w n).length = w := by
  unfold padDigits
  rw [List.length_append, List.length_replicate]
  omega

theorem fmtTimestampList_length (t : LogTime) (ht : tsBounds t) :
    (fmtTimestampList t).length = 19 := by
  obtain ⟨h1, h2, h3, h4, h5, h6⟩ := ht
  have p1 := padDigits_length 4 t.y (natToDecimal_length_le _ _ (by norm_num) (by norm_num at h1 ⊢; omega))
  have p2 := padDigits_length 2 t.mo (natToDecimal_length_le _ _ (by norm_num) (by norm_num at h2 ⊢; omega))
  have p3 := padDigits_length 2 t.d (natToDecimal_length_le _ _ (by norm_num) (by norm_num at h3 ⊢; omega))
  have p4 := padDigits_length 2 t.hh (natToDecimal_length_le _ _ (by norm_num) (by norm_num at h4 ⊢; omega))
  have p5 := padDigits_length 2 t.mi (natToDecimal_length_le _ _ (by norm_num) (by norm_num at h5 ⊢; omega))
  have p6 := padDigits_length 2 t.ss (natToDecimal_length_le _ _ (by norm_num) (by norm_num at h6 ⊢; omega))
  simp only [fmtTimestampList, List.length_append, List.length_cons, p1, p2, p3, p4, p5, p6]

theorem fmtTimestampList_all (t : LogTime) :
    (fmtTimestampList t).all tsChar = true := by
  rw [List.all_eq_true]
  intro x hx
  have hdig : ∀ w n : Nat, ∀ a ∈ padDigits w n, tsChar a = true := by
    intro w n a ha
    have := padDigits_mem w n a ha
    simp [tsChar, this]
  simp only [fmtTimestampList, List.mem_append, List.mem_cons] at hx
  rcases hx with h | h | h | h | h | h | h | h | h | h | h
  · exact hdig 4 t.y x h
  · subst h; decide
  · exact hdig 2 t.mo x h
  · subst h; decide
  · exact hdig 2 t.d x h
  · subst h; decide
  · exact hdig 2 t.hh x h
  · subst h; decide
  · exact hdig 2 t.mi x h
  · subst h; decide
  · exact hdig 2 t.ss x h

theorem numChar_of_digit {a : Char} (h : isDigitChar a = true) : numChar a = true := by
  simp [numChar, h]

theorem fmtFixedList_mem (prec : Nat) (q : ℚ) :
    ∀ x ∈ fmtFixedList prec q, numChar x = true := by
  intro x hx
  unfold fmtFixedList at hx
  rcases List.mem_append.mp hx with h | h
  · by_cases hq : q < 0
    · rw [if_pos hq] at h
      rw [List.mem_singleton] at h
      subst h
      decide
    · rw [if_neg hq] at h
      exact absurd h (List.not_mem_nil x)
  · rcases List.mem_append.mp h with h2 | h2
    · exact numChar_of_digit (natToDecimal_mem _ x h2)
    · rcases List.mem_cons.mp h2 with h3 | h3
      · subst h3; decide
      · exact numChar_of_digit (padDigits_mem _ _ x h3)

/-! ### The parser succeeds on every rendered line -/

theorem expectLit_append (lit rest : List Char) : expectLit lit (lit ++ rest) = some rest := by
  unfold expectLit
  rw [List.take_left, List.drop_left, if_pos rfl]

theorem parseUnsignedFixed_shape (ip fr : List Char)
    (hip : ip ≠ []) (hipd : ∀ a ∈ ip, isDigitChar a = true)
    (hfr : fr ≠ []) (hfrd : ∀ a ∈ fr, isDigitChar a = true) :
    parseUnsignedFixed (ip ++ '.' :: fr)
      = some ((decimalToNat ip : ℚ) + (decimalToNat fr : ℚ) / (10:ℚ) ^ fr.length) := by
  unfold parseUnsignedFixed
  rw [List.takeWhile_append_of_pos hipd, List.dropWhile_append_of_pos hipd,
    List.takeWhile_cons_of_neg (by decide), List.dropWhile_cons_of_neg (by decide),
    List.append_nil]
  rw [if_neg hip, if_pos ⟨rfl, by simpa using hfr, by simpa using List.all_eq_true.mpr hfrd⟩]
  rfl

theorem parseFixedTok_fmtFixedList (prec : Nat) (q : ℚ) (hp : 0 < prec) :
    ∃ v, parseFixedTok (fmtFixedList prec q) = some v := by
  unfold fmtFixedList
  set s := (⌊|q| * (10:ℚ)^prec + 1/2⌋).toNat with hs
  set ip := (natToDecimal (s / 10^prec)).toList with hipdef
  set fr := padDigits prec (s % 10^prec) with hfrdef
  have hipne : ip ≠ [] := natToDecimal_toList_ne_nil _
  have hipd : ∀ x ∈ ip, isDigitChar x = true := natToDecimal_mem _
  have hfrd : ∀ x ∈ fr, isDigitChar x = true := padDigits_mem _ _
  have hfrm : s % 10^prec < 10 ^ prec := Nat.mod_lt _ (Nat.pos_pow_of_pos prec (by norm_num))
  have hfrlen : fr.length = prec := padDigits_length _ _ (natToDecimal_length_le _ _ hp hfrm)
  have hfrne : fr ≠ [] := by
    intro hnil
    rw [hnil] at hfrlen
    simp at hfrlen
    omega
  by_cases hq : q < 0
  · rw [if_pos hq]
    refine ⟨-((decimalToNat ip : ℚ) + (decimalToNat fr : ℚ) / (10:ℚ) ^ fr.length), ?_⟩
    rw [show ((['-'] ++ (ip ++ '.' :: fr)) : List Char) = '-' :: (ip ++ '.' :: fr) from rfl]
    unfold parseFixedTok
    rw [if_pos (show (('-' :: (ip ++ '.' :: fr)).headD 'x') = '-' from rfl)]
    rw [show List.drop 1 ('-' :: (ip ++ '.' :: fr)) = ip ++ '.' :: fr from rfl]
    rw [parseUnsignedFixed_shape ip fr hipne hipd hfrne hfrd]
    rfl
  · rw [if_neg hq, List.nil_append]
    refine ⟨(decimalToNat ip : ℚ) + (decimalToNat fr : ℚ) / (10:ℚ) ^ fr.length, ?_⟩
    unfold parseFixedTok
    obtain ⟨c, cs, hc⟩ := List.exists_cons_of_ne_nil hipne
    have hcd : isDigitChar c = true := hipd c (by rw [hc]; exact List.mem_cons_self c cs)
    have hcne : c ≠ '-' := fun heq => absurd (heq ▸ hcd) (by decide)
    have hhead : ((ip ++ '.' :: fr).headD 'x') ≠ '-' := by
      rw [hc]
      exact hcne
    rw [if_neg hhead]
    exact parseUnsignedFixed_shape ip fr hipne hipd hfrne hfrd

theorem parseNumField_append (A rest : List Char) (c : Char) (q : ℚ)
    (hA : ∀ a ∈ A, numChar a = true) (hc : numChar c = false)
    (hq : parseFixedTok A = some q) :
    parseNumField (A ++ c :: rest) = some (q, c :: rest) := by
  unfold parseNumField
  rw [List.takeWhile_append_of_pos hA, List.dropWhile_append_of_pos hA,
    List.takeWhile_cons_of_neg (by simp [hc]), List.dropWhile_cons_of_neg (by simp [hc]),
    List.append_nil, hq]
  rfl

theorem takeWhile_of_all {α : Type} {p : α → Bool} :
    ∀ l : List α, (∀ a ∈ l, p a = true) → l.takeWhile p = l := by
  intro l
  induction l with
  | nil => intro _; rfl
  | cons a rest ih =>
    intro h
    rw [List.takeWhile_cons_of_pos (h a (List.mem_cons_self a rest)),
      ih (fun x hx => h x (List.mem_cons_of_mem a hx))]

theorem dropWhile_of_all {α : Type} {p : α → Bool} :
    ∀ l : List α, (∀ a ∈ l, p a = true) → l.dropWhile p = [] := by
  intro l
  induction l with
  | nil => intro _; rfl
  | cons a rest ih =>
    intro h
    rw [List.dropWhile_cons_of_pos (h a (List.mem_cons_self a rest)),
      ih (fun x hx => h x (List.mem_cons_of_mem a hx))]

theorem parseNumField_all (A : List Char) (q : ℚ)
    (hA : ∀ a ∈ A, numChar a = true) (hq : parseFixedTok A = some q) :
    parseNumField A = some (q, []) := by
  unfold parseNumField
  rw [takeWhile_of_all A hA, dropWhile_of_all A hA, hq]
  rfl

theorem litNumStep {β : Type} (lit A nextLit X : List Char) (v : ℚ)
    (k : ℚ × List Char → Option β)
    (hA : ∀ x ∈ A, numChar x = true) (hv : parseFixedTok A = some v)
    (hnx : ∃ hd tl, nextLit = hd :: tl ∧ numChar hd = false) :
    (expectLit lit (lit ++ (A ++ (nextLit ++ X)))).bind
        (fun r => (parseNumField r).bind k)
      = k (v, nextLit ++ X) := by
  obtain ⟨hd, tl, hnx1, hhd⟩ := hnx
  subst hnx1
  rw [expectLit_append, Option.some_bind]
  rw [show ((hd :: tl) ++ X : List Char) = hd :: (tl ++ X) from rfl]
  rw [parseNumField_append A (tl ++ X) hd v hA hhd hv, Option.some_bind]

theorem parseTrialLine_isSome (t : LogTime) (a b c d mt r : ℚ) (ht : tsBounds t) :
    (parseTrialLine (trialLogLine t a b c d mt r)).isSome = true := by
  obtain ⟨va, hva⟩ := parseFixedTok_fmtFixedList 4 a (by norm_num)
  obtain ⟨vb, hvb⟩ := parseFixedTok_fmtFixedList 4 b (by norm_num)
  obtain ⟨vc, hvc⟩ := parseFixedTok_fmtFixedList 4 c (by norm_num)
  obtain ⟨vd, hvd⟩ := parseFixedTok_fmtFixedList 4 d (by norm_num)
  obtain ⟨vm, hvm⟩ := parseFixedTok_fmtFixedList 2 mt (by norm_num)
  obtain ⟨vr, hvr⟩ := parseFixedTok_fmtFixedList 4 r (by norm_num)
  have hlen := fmtTimestampList_length t ht
  show (parseTrialLineChars (trialLogLineList t a b c d mt r)).isSome = true
  unfold parseTrialLineChars trialLogLineList
  rw [List.take_left' hlen, List.drop_left' hlen]
  rw [if_pos ⟨hlen, fmtTimestampList_all t⟩]
  rw [litNumStep litHausd (fmtFixedList 4 a) litHgrad _ va _ (fmtFixedList_mem 4 a) hva
    ⟨',', _, rfl, by decide⟩]
  simp only []
  rw [litNumStep litHgrad (fmtFixedList 4 b) litHminL _ vb _ (fmtFixedList_mem 4 b) hvb
    ⟨',', _, rfl, by decide⟩]
  simp only []
  rw [litNumStep litHminL (fmtFixedList 4 c) litHmaxL _ vc _ (fmtFixedList_mem 4 c) hvc
    ⟨',', _, rfl, by decide⟩]
  simp only []
  rw [litNumStep litHmaxL (fmtFixedList 4 d) litTime _ vd _ (fmtFixedList_mem 4 d) hvd
    ⟨',', _, rfl, by decide⟩]
  simp only []
  rw [litNumStep litTime (fmtFixedList 2 mt) litRmse _ vm _ (fmtFixedList_mem 2 mt) hvm
    ⟨' ', _, rfl, by decide⟩]
  simp only []
  rw [expectLit_append, Option.some_bind]
  rw [parseNumField_all (fmtFixedList 4 r) vr (fmtFixedList_mem 4 r) hvr, Option.some_bind]
  simp

/-! ## The parameter optimizer (`optimize_mesh_adaptation.py`)

`optimize_mesh` appends one header line to the trial log, then hands
`objective_function` to `scipy.optimize.minimize` (method Powell, hardcoded
`bounds` and `options={"maxiter": 10}`). The minimizer is an external
collaborator: a run is modelled by the sequence of trials it evaluates, each
carrying the outcome of that trial's three external stages (the adaptation
driver, the subdomain extractor, the comparator). `objective_function` has no
exception handling, so a failing stage propagates out of the minimizer; on
the success path the final log write evaluates `result.succes` — an attribute
`scipy` results do not have — raising `AttributeError` before anything is
written. -/

/-- Outcomes of one trial's three chained stages, in call order. -/
structure ChainOutcomes where
  adaptStage : Except String ℚ
  extractStage : Except String String
  compareStage : Except String ℚ

/-- One objective-function evaluation: the parameter point chosen by the
minimizer, the wall-clock timestamp of its log write, and its stage
outcomes. -/
structure TrialEval where
  ts : LogTime
  hausd : ℚ
  hgrad : ℚ
  hmin : ℚ
  hmax : ℚ
  chain : ChainOutcomes

/-- `objective_function`: run adapt → extract → compare; only when all three
succeed, append one line to the RMSE log and return the RMSE. There is no
`try`/`except`: a failing stage returns its exception with the log untouched. -/
def objective_function (tr : TrialEval) (log : List String) :
    Except String ℚ × List String :=
  match tr.chain.adaptStage with
  | Except.error e => (Except.error e, log)
  | Except.ok meshTime =>
    match tr.chain.extractStage with
    | Except.error e => (Except.error e, log)
    | Except.ok _ =>
      match tr.chain.compareStage with
      | Except.error e => (Except.error e, log)
      | Except.ok rmse =>
        (Except.ok rmse,
         log ++ [trialLogLine tr.ts tr.hausd tr.hgrad tr.hmin tr.hmax meshTime rmse])

/-- The first exception raised inside a trial's chain, if any. -/
def chainFirstError (c : ChainOutcomes) : Option String :=
  match c.adaptStage with
  | Except.error e => some e
  | Except.ok _ =>
    match c.extractStage with
    | Except.error e => some e
    | Except.ok _ =>
      match c.compareStage with
      | Except.error e => some e
      | Except.ok _ => none

/-- Python-list rendering of the initial guess in the header line. -/
def pyListStr (l : List ℚ) : String :=
  "[" ++ String.intercalate ", " (l.map pyQStr) ++ "]"

/-- Python-list rendering of the bounds in the header line. -/
def pyBoundsStr (l : List (ℚ × ℚ)) : String :=
  "[" ++ String.intercalate ", "
    (l.map (fun b => "(" ++ pyQStr b.1 ++ ", " ++ pyQStr b.2 ++ ")")) ++ "]"

/-- The header line `optimize_mesh` appends before the search starts. -/
def headerLine (ts : LogTime) (initialGuess : List ℚ) (bounds : List (ℚ × ℚ)) : String :=
  String.mk (fmtTimestampList ts)
    ++ " - Optimising parameters: HAUSD, HGRAD, HMIN, HMAX - initial guess: "
    ++ pyListStr initialGuess ++ ", bounds: " ++ pyBoundsStr bounds

/-- The box the source assigns to `bounds` inside `optimize_mesh`. -/
def hardcodedBounds : List (ℚ × ℚ) := [(1/100, 1/2), (1, 3/2), (1/10, 10), (10, 200)]

/-- The bounds actually used by the search: the source overwrites the
`bounds` parameter unconditionally, so the caller's value never reaches the
minimizer. -/
def optimize_used_bounds (bounds : Option (List (ℚ × ℚ))) : List (ℚ × ℚ) :=
  hardcodedBounds

/-- The minimizer's trial loop: evaluate trials in order, threading the log;
an exception from `objective_function` propagates immediately. -/
def runTrials : List TrialEval → List String → Except String Unit × List String
  | [], log => (Except.ok (), log)
  | tr :: rest, log =>
    match objective_function tr log with
    | (Except.error e, log2) => (Except.error e, log2)
    | (Except.ok _, log2) => runTrials rest log2

/-- `optimize_mesh`: append the header, run the minimizer, and then attempt
the completion log write, which evaluates the misspelled `result.succes` and
so raises `AttributeError` — the completion line is never written and the
function never returns a value. -/
def optimize_mesh (hts : LogTime) (initial : Option (List ℚ)) (bounds : Option (List (ℚ × ℚ)))
    (trials : List TrialEval) (log : List String) : Except String Unit × List String :=
  match runTrials trials
      (log ++ [headerLine hts (initial.getD [3/10, DEFAULT_HGRAD, DEFAULT_HMIN, DEFAULT_HMAX])
        (optimize_used_bounds bounds)]) with
  | (Except.error e, log2) => (Except.error e, log2)
  | (Except.ok _, log2) => (Except.error "AttributeError: succes", log2)

/-! ### Successful trials -/

/-- A trial whose three stages all succeed. -/
structure OkTrial where
  ts : LogTime
  hausd : ℚ
  hgrad : ℚ
  hmin : ℚ
  hmax : ℚ
  meshTime : ℚ
  extractedPath : String
  rmse : ℚ

def okTrialEval (o : OkTrial) : TrialEval :=
  { ts := o.ts, hausd := o.hausd, hgrad := o.hgrad, hmin := o.hmin, hmax := o.hmax,
    chain := ⟨Except.ok o.meshTime, Except.ok o.extractedPath, Except.ok o.rmse⟩ }

/-- The log line a successful trial appends. -/
def okTrialLine (o : OkTrial) : String :=
  trialLogLine o.ts o.hausd o.hgrad o.hmin o.hmax o.meshTime o.rmse

theorem objective_okTrial (o : OkTrial) (log : List String) :
    objective_function (okTrialEval o) log = (Except.ok o.rmse, log ++ [okTrialLine o]) := rfl

theorem objective_error (tr : TrialEval) (log : List String) (e : String)
    (h : chainFirstError tr.chain = some e) :
    objective_function tr log = (Except.error e, log) := by
  unfold chainFirstError at h
  unfold objective_function
  cases h1 : tr.chain.adaptStage with
  | error e1 =>
    rw [h1] at h
    simp only [Option.some.injEq] at h
    rw [h]
  | ok m =>
    rw [h1] at h
    cases h2 : tr.chain.extractStage with
    | error e2 =>
      rw [h2] at h
      simp only [Option.some.injEq] at h
      rw [h]
    | ok x =>
      rw [h2] at h
      cases h3 : tr.chain.compareStage with
      | error e3 =>
        rw [h3] at h
        simp only [Option.some.injEq] at h
        rw [h]
      | ok r =>
        rw [h3] at h
        cases h

theorem runTrials_ok_front (l : List OkTrial) (suffix : List TrialEval) :
    ∀ log : List String,
    runTrials (l.map okTrialEval ++ suffix) log
      = runTrials suffix (log ++ l.map okTrialLine) := by
  induction l with
  | nil => intro log; simp
  | cons o rest ih =>
    intro log
    have step : runTrials (okTrialEval o :: (rest.map okTrialEval ++ suffix)) log
        = runTrials (rest.map okTrialEval ++ suffix) (log ++ [okTrialLine o]) := rfl
    rw [List.map_cons, List.cons_append, step, ih (log ++ [okTrialLine o]),
      List.append_assoc, List.singleton_append, List.map_cons]

theorem runTrials_all_ok (l : List OkTrial) (log : List String) :
    runTrials (l.map okTrialEval) log = (Except.ok (), log ++ l.map okTrialLine) := by
  have h := runTrials_ok_front l [] log
  rw [List.append_nil] at h
  exact h

/-! ### Claim C3: a failing trial -/

/-- A concrete timestamp. -/
def ts0 : LogTime := ⟨2026, 10, 12, 14, 30, 0⟩

theorem ts0_bounds : tsBounds ts0 :=
  ⟨by decide, by decide, by decide, by decide, by decide, by decide⟩

/-- A trial whose adaptation stage raises. -/
def failingTrial : TrialEval :=
  { ts := ts0, hausd := 3, hgrad := 13, hmin := 1, hmax := 50,
    chain := ⟨Except.error "mmg3d: exit 1", Except.ok "x_extracted.mesh", Except.ok 0⟩ }

/-- A trial whose three stages all succeed. -/
def okTrialC3 : OkTrial := ⟨ts0, 7, 11, 2, 60, 5, "y_extracted.mesh", 2⟩

/-- Claim C3 counterexample: on a trial whose chain fails, the optimizer is
claimed to record a worst-case RMSE, still log the trial, and continue. In
the code `objective_function` has no exception handling: the error
propagates, nothing is appended to the log, and a run whose first trial
fails aborts with that error — the second trial never runs and the log holds
only the header line. -/
theorem failed_trial_not_logged_counterexample :
    objective_function failingTrial [] = (Except.error "mmg3d: exit 1", []) ∧
    (optimize_mesh ts0 none none [failingTrial, okTrialEval okTrialC3] []).1
      = Except.error "mmg3d: exit 1" ∧
    (optimize_mesh ts0 none none [failingTrial, okTrialEval okTrialC3] []).2
      = [headerLine ts0 [3/10, DEFAULT_HGRAD, DEFAULT_HMIN, DEFAULT_HMAX] hardcodedBounds] :=
  ⟨rfl, rfl, rfl⟩

/-- Claim C3 amended: when a trial's chain fails, the exception propagates:
the failing trial appends nothing to the log (no worst-case RMSE is
recorded), the whole `optimize_mesh` run aborts with that error, and the
trials after the failing one are never evaluated — the final log holds the
header plus one line per completed earlier trial only. -/
theorem failed_trial_aborts_optimization (okPre : List OkTrial) (bad : TrialEval)
    (rest : List TrialEval) (hts : LogTime) (ig : Option (List ℚ))
    (bnds : Option (List (ℚ × ℚ))) (log : List String) (e : String)
    (hbad : chainFirstError bad.chain = some e) :
    objective_function bad log = (Except.error e, log) ∧
    optimize_mesh hts ig bnds (okPre.map okTrialEval ++ bad :: rest) log
      = (Except.error e,
         log ++ headerLine hts (ig.getD [3/10, DEFAULT_HGRAD, DEFAULT_HMIN, DEFAULT_HMAX])
             (optimize_used_bounds bnds) :: okPre.map okTrialLine) := by
  refine ⟨objective_error bad log e hbad, ?_⟩
  unfold optimize_mesh
  rw [runTrials_ok_front]
  show (match runTrials (bad :: rest) _ with
        | (Except.error e2, log2) => (Except.error e2, log2)
        | (Except.ok _, log2) => (Except.error "AttributeError: succes", log2)) = _
  unfold runTrials
  rw [objective_error bad _ e hbad]
  simp

/-- Witness for `failed_trial_aborts_optimization` at a concrete failing
trial preceded and followed by successful ones. -/
theorem failed_trial_aborts_optimization_witness :
    chainFirstError failingTrial.chain = some "mmg3d: exit 1" ∧
    (objective_function failingTrial [] = (Except.error "mmg3d: exit 1", []) ∧
      optimize_mesh ts0 none none
          ([okTrialC3].map okTrialEval ++ failingTrial :: [okTrialEval okTrialC3]) []
        = (Except.error "mmg3d: exit 1",
           [] ++ headerLine ts0 ((none : Option (List ℚ)).getD
               [3/10, DEFAULT_HGRAD, DEFAULT_HMIN, DEFAULT_HMAX])
               (optimize_used_bounds none) :: [okTrialC3].map okTrialLine)) :=
  ⟨rfl, failed_trial_aborts_optimization [okTrialC3] failingTrial [okTrialEval okTrialC3]
    ts0 none none [] "mmg3d: exit 1" rfl⟩

/-! ### Claim C8: log structure -/

/-- Claim C8 counterexample: starting from an empty log, a run that performs
one (successful) trial is claimed to leave exactly one log line; the log
actually holds two lines, because `optimize_mesh` writes a header line before
the first trial. -/
theorem trial_log_has_header_line_counterexample :
    (optimize_mesh ts0 none none [okTrialEval okTrialC3] []).2.length = 2 ∧
    (2 : Nat) ≠ 1 :=
  ⟨rfl, by decide⟩

/-- Claim C8 amended: after a run whose minimizer evaluates `n` trials, all
successful, the log is the initial log plus one header line plus exactly `n`
trial lines in trial order (writes are append-only: the previous log is a
prefix), and each trial line parses back into a timestamp and six numeric
fields (four parameters, meshing time, RMSE). The completion line is never
written: the run ends in `AttributeError` on `result.succes`. -/
theorem optimize_log_structure (hts : LogTime) (ig : Option (List ℚ))
    (bnds : Option (List (ℚ × ℚ))) (okTrials : List OkTrial) (log0 : List String)
    (hts2 : ∀ o ∈ okTrials, tsBounds o.ts) :
    (optimize_mesh hts ig bnds (okTrials.map okTrialEval) log0).2
        = log0 ++ headerLine hts (ig.getD [3/10, DEFAULT_HGRAD, DEFAULT_HMIN, DEFAULT_HMAX])
            (optimize_used_bounds bnds) :: okTrials.map okTrialLine ∧
    (optimize_mesh hts ig bnds (okTrials.map okTrialEval) log0).2.length
        = log0.length + 1 + okTrials.length ∧
    (optimize_mesh hts ig bnds (okTrials.map okTrialEval) log0).1
        = Except.error "AttributeError: succes" ∧
    ∀ o ∈ okTrials, (parseTrialLine (okTrialLine o)).isSome = true := by
  have hrun := runTrials_all_ok okTrials
    (log0 ++ [headerLine hts (ig.getD [3/10, DEFAULT_HGRAD, DEFAULT_HMIN, DEFAULT_HMAX])
      (optimize_used_bounds bnds)])
  have hmain : optimize_mesh hts ig bnds (okTrials.map okTrialEval) log0
      = (Except.error "AttributeError: succes",
         log0 ++ headerLine hts (ig.getD [3/10, DEFAULT_HGRAD, DEFAULT_HMIN, DEFAULT_HMAX])
             (optimize_used_bounds bnds) :: okTrials.map okTrialLine) := by
    unfold optimize_mesh
    rw [hrun]
    simp
  refine ⟨by rw [hmain], ?_, by rw [hmain], ?_⟩
  · rw [hmain]
    simp only [List.length_append, List.length_cons, List.length_map]
    omega
  · intro o ho
    exact parseTrialLine_isSome o.ts o.hausd o.hgrad o.hmin o.hmax o.meshTime o.rmse
      (hts2 o ho)

/-- Witness for `optimize_log_structure` on a single concrete trial. -/
theorem optimize_log_structure_witness :
    (∀ o ∈ [okTrialC3], tsBounds o.ts) ∧
    ((optimize_mesh ts0 none none ([okTrialC3].map okTrialEval) []).2
        = [] ++ headerLine ts0 ((none : Option (List ℚ)).getD
            [3/10, DEFAULT_HGRAD, DEFAULT_HMIN, DEFAULT_HMAX])
            (optimize_used_bounds none) :: [okTrialC3].map okTrialLine ∧
      (optimize_mesh ts0 none none ([okTrialC3].map okTrialEval) []).2.length
        = List.length ([] : List String) + 1 + [okTrialC3].length ∧
      (optimize_mesh ts0 none none ([okTrialC3].map okTrialEval) []).1
        = Except.error "AttributeError: succes" ∧
      ∀ o ∈ [okTrialC3], (parseTrialLine (okTrialLine o)).isSome = true) :=
  ⟨fun o ho => by rw [List.mem_singleton] at ho; subst ho; exact ts0_bounds,
   optimize_log_structure ts0 none none [okTrialC3] []
     (fun o ho => by rw [List.mem_singleton] at ho; subst ho; exact ts0_bounds)⟩

/-! ### Claim C9: bounds and return value -/

/-- A degenerate single-point bounds box. -/
def singlePointBounds : List (ℚ × ℚ) := [(2, 2), (2, 2), (2, 2), (2, 2)]

/-- Claim C9 counterexample: `optimize()` is claimed to return the bound
point as `best_params` when called with a single-point box; the source has no
`max_iterations` parameter, unconditionally overwrites the caller's bounds
with a hardcoded box, and returns no parameters at all — the run ends in an
exception (here the `AttributeError` from the misspelled `result.succes`),
so the degenerate box never reaches the minimizer and nothing is returned. -/
theorem optimize_ignores_caller_bounds_counterexample :
    optimize_used_bounds (some singlePointBounds) = hardcodedBounds ∧
    hardcodedBounds ≠ singlePointBounds ∧
    (optimize_mesh ts0 none (some singlePointBounds) [okTrialEval okTrialC3] []).1
      = Except.error "AttributeError: succes" := by
  refine ⟨rfl, ?_, rfl⟩
  intro h
  have h1 := congrArg List.head? h
  simp only [hardcodedBounds, singlePointBounds, List.head?_cons, Option.some.injEq,
    Prod.mk.injEq] at h1
  exact absurd h1.1 (by norm_num)

/-- Claim C9 amended: `optimize_mesh` ignores any caller-supplied bounds
(the hardcoded box `[(0.01, 0.5), (1.0, 1.5), (0.1, 10), (10, 200)]` is used
instead), exposes no `max_iterations` parameter (Powell's `maxiter` is
hardcoded to 10), and never returns best parameters: every run ends in an
exception — a failing trial's error, or `AttributeError` from
`result.succes` on the success path. -/
theorem optimize_hardcodes_bounds_and_returns_none (bnds : Option (List (ℚ × ℚ)))
    (hts : LogTime) (ig : Option (List ℚ)) (trials : List TrialEval) (log : List String)
    (hb : ∃ b, bnds = some b) :
    optimize_used_bounds bnds = hardcodedBounds ∧
    ∃ e, (optimize_mesh hts ig bnds trials log).1 = Except.error e := by
  refine ⟨rfl, ?_⟩
  unfold optimize_mesh
  rcases hrt : runTrials trials
      (log ++ [headerLine hts (ig.getD [3/10, DEFAULT_HGRAD, DEFAULT_HMIN, DEFAULT_HMAX])
        (optimize_used_bounds bnds)]) with ⟨fst, snd⟩
  cases fst with
  | error e => exact ⟨e, rfl⟩
  | ok u => exact ⟨"AttributeError: succes", rfl⟩

/-- Witness for `optimize_hardcodes_bounds_and_returns_none` at the
single-point box. -/
theorem optimize_hardcodes_bounds_and_returns_none_witness :
    (∃ b, (some singlePointBounds : Option (List (ℚ × ℚ))) = some b) ∧
    (optimize_used_bounds (some singlePointBounds) = hardcodedBounds ∧
      ∃ e, (optimize_mesh ts0 none (some singlePointBounds)
          [okTrialEval okTrialC3] []).1 = Except.error e) :=
  ⟨⟨singlePointBounds, rfl⟩,
   optimize_hardcodes_bounds_and_returns_none (some singlePointBounds) ts0 none
     [okTrialEval okTrialC3] [] ⟨singlePointBounds, rfl⟩⟩

/-! ## The fidelity comparator (`mesh_comparison.py`)

`compare_meshes` reads the original surface and the adapted mesh, writes a
`.vtu` conversion of the adapted mesh next to it — the path is
`adapted_mesh_file.with_name(adapted_mesh_file.name.replace(".mesh", ".vtu"))`,
a replacement of every occurrence, not only the suffix — reads that file
back, and returns the RMSE of the signed distances. Paths are a
(parent, name) pair, mirroring `pathlib`'s `with_name`; mesh contents and the
`meshio`/`pyvista` computations are opaque parameters. -/

structure PyPath where
  parent : String
  name : String
deriving DecidableEq

/-- `pathlib.Path.with_name`. -/
def withName (p : PyPath) (n : String) : PyPath := ⟨p.parent, n⟩

/-- The `.vtu` path the comparator writes:
`with_name(name.replace(".mesh", ".vtu"))`. -/
def adaptedVtuPath (adapted : PyPath) : PyPath :=
  withName adapted (pyReplace adapted.name ".mesh" ".vtu")

/-- Modelled from the claim's words: the sibling path obtained by replacing
the `.mesh` suffix (the last five characters, when they are `.mesh`) with
`.vtu` — for comparison with the path the code computes. -/
def claimSuffixVtuPath (p : PyPath) : PyPath :=
  withName p (String.mk (p.name.toList.take (p.name.toList.length - 5)) ++ ".vtu")

/-- `compare_meshes`: read surface (`pv.read`), read mesh (`meshio.read`),
write the `.vtu` conversion (`meshio.write`, overwriting), read it back, and
return the RMSE. The only file-system effect is the single `.vtu` write. -/
def compare_meshes {α : Type} (meshioConvert : α → α) (rmseOf : α → α → ℚ)
    (fs : PyPath → Option α) (adapted_mesh_file original_surf_file : PyPath) :
    Except String ((PyPath → Option α) × ℚ) :=
  match fs original_surf_file with
  | none => Except.error "FileNotFoundError"
  | some original_mesh =>
    match fs adapted_mesh_file with
    | none => Except.error "FileNotFoundError"
    | some adapted_mesh =>
      Except.ok
        (fun q => if q = adaptedVtuPath adapted_mesh_file
                  then some (meshioConvert adapted_mesh) else fs q,
         rmseOf (meshioConvert adapted_mesh) original_mesh)

/-- A concrete file system holding an adapted mesh whose name contains
`.mesh` twice, and a surface. -/
def c10fs : PyPath → Option Nat :=
  fun q => if q = ⟨"proj", "b.mesh.mesh"⟩ then some 1
           else if q = ⟨"proj", "sphere.ply"⟩ then some 2 else none

/-- Claim C10 counterexample: for the adapted mesh `proj/b.mesh.mesh`, the
claimed output path — the name with its `.mesh` suffix replaced —
is `proj/b.mesh.vtu`, but `str.replace` rewrites every occurrence, so the
comparator writes `proj/b.vtu.vtu` and creates nothing at `proj/b.mesh.vtu`. -/
theorem compare_vtu_path_double_extension_counterexample :
    adaptedVtuPath ⟨"proj", "b.mesh.mesh"⟩ = ⟨"proj", "b.vtu.vtu"⟩ ∧
    claimSuffixVtuPath ⟨"proj", "b.mesh.mesh"⟩ = ⟨"proj", "b.mesh.vtu"⟩ ∧
    (⟨"proj", "b.vtu.vtu"⟩ : PyPath) ≠ ⟨"proj", "b.mesh.vtu"⟩ ∧
    (match compare_meshes (fun (m : Nat) => m) (fun _ _ => (0:ℚ)) c10fs
        ⟨"proj", "b.mesh.mesh"⟩ ⟨"proj", "sphere.ply"⟩ with
     | Except.ok p => p.1 ⟨"proj", "b.vtu.vtu"⟩ = some 1 ∧ p.1 ⟨"proj", "b.mesh.vtu"⟩ = none
     | Except.error _ => False) := by
  refine ⟨by decide, by decide, by decide, ?_⟩
  exact ⟨by decide, by decide⟩

/-- Claim C10 amended: besides returning the RMSE, `compare_meshes` writes
exactly one file: the `.vtu` conversion of the adapted mesh, at the sibling
path obtained by replacing every occurrence of `.mesh` in the file's name
with `.vtu` (which is the suffix replacement whenever `.mesh` occurs only as
the suffix), overwriting anything there; every other path is untouched. -/
theorem compare_meshes_frame_effect {α : Type} (meshioConvert : α → α) (rmseOf : α → α → ℚ)
    (fs : PyPath → Option α) (adapted surf : PyPath) (om am : α)
    (hsurf : fs surf = some om) (hadapted : fs adapted = some am) :
    ∃ fs2, compare_meshes meshioConvert rmseOf fs adapted surf
        = Except.ok (fs2, rmseOf (meshioConvert am) om) ∧
      fs2 (adaptedVtuPath adapted) = some (meshioConvert am) ∧
      ∀ p, p ≠ adaptedVtuPath adapted → fs2 p = fs p := by
  refine ⟨fun q => if q = adaptedVtuPath adapted then some (meshioConvert am) else fs q,
    ?_, ?_, ?_⟩
  · unfold compare_meshes
    rw [hsurf, hadapted]
  · simp
  · intro p hp
    simp [hp]

/-- Witness for `compare_meshes_frame_effect` on the concrete file system. -/
theorem compare_meshes_frame_effect_witness :
    c10fs ⟨"proj", "sphere.ply"⟩ = some 2 ∧
    c10fs ⟨"proj", "b.mesh.mesh"⟩ = some 1 ∧
    (∃ fs2, compare_meshes (fun (m : Nat) => m) (fun _ _ => (0:ℚ)) c10fs
          ⟨"proj", "b.mesh.mesh"⟩ ⟨"proj", "sphere.ply"⟩
        = Except.ok (fs2, (0:ℚ)) ∧
      fs2 (adaptedVtuPath ⟨"proj", "b.mesh.mesh"⟩) = some 1 ∧
      ∀ p, p ≠ adaptedVtuPath ⟨"proj", "b.mesh.mesh"⟩ → fs2 p = c10fs p) :=
  ⟨by decide, by decide,
   compare_meshes_frame_effect (fun (m : Nat) => m) (fun _ _ => (0:ℚ)) c10fs
     ⟨"proj", "b.mesh.mesh"⟩ ⟨"proj", "sphere.ply"⟩ 2 1 (by decide) (by decide)⟩

end MSMFE
